import Mathlib

/-!
Verification development for the xrandrlib repository (files
src/xrandrlib/utils.py and src/xrandrlib/xrandr.py).

The Python code is shallowly embedded: each regular expression is translated
into a deterministic matcher with the same leftmost/greedy backtracking
semantics as the Python `re` engine (every place where the hand translation
collapses backtracking is justified by a comment), the LineBuffer class is
modelled as a state-passing structure, exceptions are modelled with `Except`,
and the recursive-descent parser of xrandr.py is translated loop by loop
(while-loops become fuel-indexed recursive functions; the fuel is always
instantiated above the number of remaining lines, and every loop iteration
consumes at least one line, so the out-of-fuel case is unreachable in all
theorems below).
-/

/-! ## Python string primitives -/

/-- The characters the Python `str.strip`, `str.split` and the regex class
`\s` treat as whitespace (ASCII). -/
def pyIsSpace (c : Char) : Bool :=
  c = ' ' ∨ c = '\t' ∨ c = '\n' ∨ c = '\r' ∨ c = '\x0b' ∨ c = '\x0c'

/-- Python `str.strip()`: remove leading and trailing whitespace. -/
def pyStrip (s : String) : String :=
  String.mk (((s.data.dropWhile pyIsSpace).reverse.dropWhile pyIsSpace).reverse)

/-- Helper for `pySplit`: walk the characters, accumulating the current
(reversed) token in `acc`; whitespace flushes a non-empty accumulator. -/
def pySplitAux : List Char → List Char → List String
  | [], acc => if acc.isEmpty then [] else [String.mk acc.reverse]
  | c :: cs, acc =>
    if pyIsSpace c then
      if acc.isEmpty then pySplitAux cs []
      else String.mk acc.reverse :: pySplitAux cs []
    else pySplitAux cs (c :: acc)

/-- Python `str.split()` with no argument: split on runs of whitespace,
producing no empty tokens. -/
def pySplit (s : String) : List String := pySplitAux s.data []

/-- Python `str.startswith(pre)`. -/
def pyStartsWith (s pre : String) : Bool := pre.data.isPrefixOf s.data

/-- Value of a decimal digit string, as computed by Python `int(s)` on the
digit-only captures of the patterns below. -/
def decVal (s : String) : Nat :=
  s.data.foldl (fun a c => a * 10 + (c.toNat - '0'.toNat)) 0

/-- Value of a lowercase hexadecimal digit string, as computed by Python
`int(s, 16)` on the `[0-9a-f]+` captures of the patterns below. -/
def hexVal (s : String) : Nat :=
  s.data.foldl
    (fun a c => a * 16 + (if c.isDigit then c.toNat - '0'.toNat else c.toNat - 'a'.toNat + 10)) 0

/-- Python `hex(n)` for a non-negative int: `0x` followed by lowercase
hexadecimal digits (`hex(0) = "0x0"`). -/
def pyHex (n : Nat) : String := "0x" ++ (Nat.toDigits 16 n).asString

/-- Python `sep.join(l)`. -/
def pyJoin (sep : String) : List String → String
  | [] => ""
  | [s] => s
  | s :: rest => s ++ sep ++ pyJoin sep rest

/-! ## LineBuffer (src/xrandrlib/utils.py)

The Python class holds a one-line lookahead `buffer` and an iterator; here the
iterator is the list `rest` and every mutating method returns the new state.
A `none` result of `peek`/`next` models the raised `StopIteration`. -/

structure LineBuffer where
  buffer : Option String
  rest : List String
  deriving Repr, DecidableEq

/-- `LineBuffer._ensure_buffer`: pull a line from the iterator into the
buffer if the buffer is empty; the Bool is the Python return value. -/
def LineBuffer.ensure_buffer : LineBuffer → Bool × LineBuffer
  | ⟨some l, rest⟩ => (true, ⟨some l, rest⟩)
  | ⟨none, []⟩ => (false, ⟨none, []⟩)
  | ⟨none, l :: rest⟩ => (true, ⟨some l, rest⟩)

/-- `LineBuffer.__init__(lines)`: start with an empty buffer and call
`_ensure_buffer` once (its Bool result is discarded). -/
def LineBuffer.ofList (lines : List String) : LineBuffer :=
  (LineBuffer.ensure_buffer ⟨none, lines⟩).2

/-- `LineBuffer.peek`: `none` models the raised `StopIteration`.  When
`_ensure_buffer` returns True the buffer is necessarily filled, so the inner
`none` branch is unreachable. -/
def LineBuffer.peek (b : LineBuffer) : Option (String × LineBuffer) :=
  match b.ensure_buffer with
  | (false, _) => none
  | (true, b1) =>
    match b1.buffer with
    | some l => some (l, b1)
    | none => none

/-- `LineBuffer.next`: return the buffered line and clear the buffer;
`none` models the raised `StopIteration`. -/
def LineBuffer.next (b : LineBuffer) : Option (String × LineBuffer) :=
  match b.ensure_buffer with
  | (false, _) => none
  | (true, b1) =>
    match b1.buffer with
    | some l => some (l, { b1 with buffer := none })
    | none => none

/-- `LineBuffer.has_next`: returns `_ensure_buffer()` (Bool plus the possibly
advanced state); it never fails. -/
def LineBuffer.has_next (b : LineBuffer) : Bool × LineBuffer := b.ensure_buffer

/-- Number of unconsumed lines held by the cursor. -/
def LineBuffer.size (b : LineBuffer) : Nat :=
  (match b.buffer with | some _ => 1 | none => 0) + b.rest.length

/-! ## Pattern matchers (the three re.compile patterns of xrandr.py)

All matchers work on `List Char` and, like `re.match`, match a prefix of the
line: trailing unmatched input is allowed. -/

/-- Match a literal character sequence, returning the remaining input. -/
def lit : List Char → List Char → Option (List Char)
  | [], cs => some cs
  | _ :: _, [] => none
  | p :: ps, c :: cs => if c = p then lit ps cs else none

/-- Greedy `X+` for a character class: take the maximal run of characters
satisfying `p`; fail if it is empty.  Exact for every use below because each
occurrence of a class-plus in the patterns is followed by a character outside
the class, so the regex engine never backtracks into it. -/
def munch1 (p : Char → Bool) (cs : List Char) : Option (String × List Char) :=
  let tk := cs.takeWhile p
  if tk.isEmpty then none else some (String.mk tk, cs.dropWhile p)

/-- The regex class `[0-9a-f]`. -/
def isHexDigitLower (c : Char) : Bool := c.isDigit || ('a' ≤ c && c ≤ 'f')

/-- Captures of `_REGEX_SCREEN_HEADER`:
`Screen (num): minimum (minW) x (minH), current (curW) x (curH),
maximum (maxW) x (maxH)` with all seven groups `[0-9]+`. -/
structure ScreenCaps where
  num : String
  minW : String
  minH : String
  curW : String
  curH : String
  maxW : String
  maxH : String
  deriving Repr, DecidableEq

/-- `_REGEX_SCREEN_HEADER.match(s)`.  The pattern is a chain of literals and
`[0-9]+` groups each followed by a non-digit, so it is deterministic. -/
def matchScreenHeader (s : String) : Option ScreenCaps :=
  match lit "Screen ".data s.data with
  | none => none
  | some cs =>
  match munch1 Char.isDigit cs with
  | none => none
  | some (num, cs) =>
  match lit ": minimum ".data cs with
  | none => none
  | some cs =>
  match munch1 Char.isDigit cs with
  | none => none
  | some (minW, cs) =>
  match lit " x ".data cs with
  | none => none
  | some cs =>
  match munch1 Char.isDigit cs with
  | none => none
  | some (minH, cs) =>
  match lit ", current ".data cs with
  | none => none
  | some cs =>
  match munch1 Char.isDigit cs with
  | none => none
  | some (curW, cs) =>
  match lit " x ".data cs with
  | none => none
  | some cs =>
  match munch1 Char.isDigit cs with
  | none => none
  | some (curH, cs) =>
  match lit ", maximum ".data cs with
  | none => none
  | some cs =>
  match munch1 Char.isDigit cs with
  | none => none
  | some (maxW, cs) =>
  match lit " x ".data cs with
  | none => none
  | some cs =>
  match munch1 Char.isDigit cs with
  | none => none
  | some (maxH, _) => some ⟨num, minW, minH, curW, curH, maxW, maxH⟩

/-- Captures of `_REGEX_OUTPUT_HEADER`.  Every optional group that did not
participate in the match is `none`, mirroring `m.group(...) is None`. -/
structure OutputCaps where
  name : String
  status : String
  width : Option String
  height : Option String
  xpos : Option String
  ypos : Option String
  mode_id : Option String
  deriving Repr, DecidableEq

/-- The alternation `disconnected|connected|unknown connection` followed by a
literal space.  The three alternatives start with distinct characters, so
trying them in order with the mandatory trailing space folded in is exactly
the behaviour of the backtracking engine. -/
def matchStatus (cs : List Char) : Option (String × List Char) :=
  match lit "disconnected ".data cs with
  | some cs1 => some ("disconnected", cs1)
  | none =>
  match lit "connected ".data cs with
  | some cs1 => some ("connected", cs1)
  | none =>
  match lit "unknown connection ".data cs with
  | some cs1 => some ("unknown connection", cs1)
  | none => none

/-- The inner optional group `\+(xpos)\+(ypos)`. -/
def tryPosBlock (cs : List Char) : Option (String × String × List Char) :=
  match lit "+".data cs with
  | none => none
  | some cs1 =>
  match munch1 Char.isDigit cs1 with
  | none => none
  | some (x, cs2) =>
  match lit "+".data cs2 with
  | none => none
  | some cs3 =>
  match munch1 Char.isDigit cs3 with
  | none => none
  | some (y, cs4) => some (x, y, cs4)

/-- Result of the optional size/position block of the output header. -/
structure SizeBlockCaps where
  width : String
  height : String
  xpos : Option String
  ypos : Option String
  deriving Repr, DecidableEq

/-- The optional group `((width)x(height)(\+(xpos)\+(ypos))? )?` of the
output header.  The greedy inner position group is tried first; if the
mandatory space after it fails the engine retries with the position group
matching empty, and if that also fails the whole block matches empty
(returning the original input). -/
def trySizeBlock (cs : List Char) : Option SizeBlockCaps × List Char :=
  match munch1 Char.isDigit cs with
  | none => (none, cs)
  | some (w, cs1) =>
  match lit "x".data cs1 with
  | none => (none, cs)
  | some cs2 =>
  match munch1 Char.isDigit cs2 with
  | none => (none, cs)
  | some (h, cs3) =>
  match tryPosBlock cs3 with
  | some (x, y, cs4) =>
    (match lit " ".data cs4 with
     | some cs5 => (some ⟨w, h, some x, some y⟩, cs5)
     | none =>
       match lit " ".data cs3 with
       | some cs5 => (some ⟨w, h, none, none⟩, cs5)
       | none => (none, cs))
  | none =>
    match lit " ".data cs3 with
    | some cs5 => (some ⟨w, h, none, none⟩, cs5)
    | none => (none, cs)

/-- The optional group `(\(0x(mode_id)\) )?` of the output header.  Note the
mandatory space after the closing parenthesis: a line that ends right after
`(..)` does not satisfy the group, which then matches empty. -/
def tryModeIdBlock (cs : List Char) : Option String × List Char :=
  match lit "(0x".data cs with
  | none => (none, cs)
  | some cs1 =>
  match munch1 isHexDigitLower cs1 with
  | none => (none, cs)
  | some (mid, cs2) =>
  match lit ") ".data cs2 with
  | none => (none, cs)
  | some cs3 => (some mid, cs3)

/-- `_REGEX_OUTPUT_HEADER.match(s)`: `(name)[^\s]+ (status) (size block)?
(mode id block)?`.  Once name and status have matched, the two remaining
groups are optional, so the whole pattern succeeds. -/
def matchOutputHeader (s : String) : Option OutputCaps :=
  match munch1 (fun c => !(pyIsSpace c)) s.data with
  | none => none
  | some (name, cs) =>
  match lit " ".data cs with
  | none => none
  | some cs =>
  match matchStatus cs with
  | none => none
  | some (status, cs) =>
    let sb := trySizeBlock cs
    let mb := tryModeIdBlock sb.2
    some { name := name, status := status,
           width := sb.1.map SizeBlockCaps.width,
           height := sb.1.map SizeBlockCaps.height,
           xpos := sb.1.bind SizeBlockCaps.xpos,
           ypos := sb.1.bind SizeBlockCaps.ypos,
           mode_id := mb.1 }

/-- Captures of `_REGEX_MODE_HEADER`.  `current`/`preferred` record whether
the optional literal groups participated (`m.group(..) is not None`). -/
structure ModeCaps where
  width : String
  height : String
  mode_id : String
  flags : String
  current : Bool
  preferred : Bool
  deriving Repr, DecidableEq

/-- One repetition of the flags group: the alternation
`[+-][HV]Sync|Interlace`, tried left to right.  Returns the consumed
characters and the rest. -/
def flagToken (cs : List Char) : Option (List Char × List Char) :=
  match cs with
  | c1 :: c2 :: rest =>
    if (c1 = '+' ∨ c1 = '-') ∧ (c2 = 'H' ∨ c2 = 'V') then
      match lit "Sync".data rest with
      | some rest1 => some (c1 :: c2 :: "Sync".data, rest1)
      | none =>
        match lit "Interlace".data cs with
        | some rest1 => some ("Interlace".data, rest1)
        | none => none
    else
      match lit "Interlace".data cs with
      | some rest1 => some ("Interlace".data, rest1)
      | none => none
  | _ =>
    match lit "Interlace".data cs with
    | some rest1 => some ("Interlace".data, rest1)
    | none => none

/-- Greedy `((flag token) ?)*`: each repetition consumes a flag token and, if
present, one following space.  Everything after the flags group in the mode
pattern is optional, so the engine never backtracks out of the greedy
expansion; the first component is the consumed span (the capture).  Each
repetition consumes at least one character, so `fuel := cs.length` (used by
`munchFlags`) never cuts the recursion short. -/
def munchFlagsAux : Nat → List Char → List Char × List Char
  | 0, cs => ([], cs)
  | fuel + 1, cs =>
    match flagToken cs with
    | none => ([], cs)
    | some (tok, rest) =>
      match rest with
      | c :: rest1 =>
        if c = ' ' then
          let r := munchFlagsAux fuel rest1
          (tok ++ c :: r.1, r.2)
        else
          let r := munchFlagsAux fuel rest
          (tok ++ r.1, r.2)
      | [] =>
        let r := munchFlagsAux fuel []
        (tok ++ r.1, r.2)

/-- The flags group `(([+-][HV]Sync|Interlace) ?)+`: at least one repetition
is required, so the group fails (and with it the whole mode pattern) on a
line whose flags segment is empty. -/
def munchFlags (cs : List Char) : Option (String × List Char) :=
  match flagToken cs with
  | none => none
  | some _ =>
    let r := munchFlagsAux cs.length cs
    some (String.mk r.1, r.2)

/-- `Hz ?(flags)`: the greedy optional space is consumed first; if the flags
group then fails, the engine retries with the space not consumed. -/
def tryOptSpaceThenFlags (cs : List Char) : Option (String × List Char) :=
  match cs with
  | c :: cs1 =>
    if c = ' ' then
      match munchFlags cs1 with
      | some r => some r
      | none => munchFlags cs
    else munchFlags cs
  | [] => munchFlags cs

/-- Optional literal group such as `(\*current)?`: consume it if it is a
prefix, recording whether it participated. -/
def tryLit (p : List Char) (cs : List Char) : Bool × List Char :=
  match lit p cs with
  | some cs1 => (true, cs1)
  | none => (false, cs)

/-- The optional magnitude letter `[GMK]?` of the refresh-rate field.  It is
followed by the literal `Hz`, and G/M/K differ from H, so consuming the
letter when present is exact. -/
def tryGMK (cs : List Char) : List Char :=
  match cs with
  | c :: rest => if c = 'G' ∨ c = 'M' ∨ c = 'K' then rest else cs
  | [] => cs

/-- The leading fixed part of `_REGEX_MODE_HEADER`: two literal spaces,
`(width)x(height)`, ` (0x(mode_id)) ` and the refresh rate
`[0-9]+\.[0-9]+[GMK]?Hz`; returns the three captures and the rest of the
line. -/
def matchModeHeaderPre (s : String) : Option (String × String × String × List Char) :=
  match lit "  ".data s.data with
  | none => none
  | some cs =>
  match munch1 Char.isDigit cs with
  | none => none
  | some (w, cs) =>
  match lit "x".data cs with
  | none => none
  | some cs =>
  match munch1 Char.isDigit cs with
  | none => none
  | some (h, cs) =>
  match lit " (0x".data cs with
  | none => none
  | some cs =>
  match munch1 isHexDigitLower cs with
  | none => none
  | some (mid, cs) =>
  match lit ") ".data cs with
  | none => none
  | some cs =>
  match munch1 Char.isDigit cs with
  | none => none
  | some (_, cs) =>
  match lit ".".data cs with
  | none => none
  | some cs =>
  match munch1 Char.isDigit cs with
  | none => none
  | some (_, cs) =>
  match lit "Hz".data (tryGMK cs) with
  | none => none
  | some cs => some (w, h, mid, cs)

/-- `_REGEX_MODE_HEADER.match(s)`: the fixed prefix, then ` ?`, the mandatory
flags group, then the optional `\*current`, ` ?`, `\+preferred`.  The
trailing optional groups never fail, so no backtracking reaches back into
the flags group. -/
def matchModeHeader (s : String) : Option ModeCaps :=
  match matchModeHeaderPre s with
  | none => none
  | some (w, h, mid, cs) =>
  match tryOptSpaceThenFlags cs with
  | none => none
  | some (fl, cs) =>
    let curR := tryLit "*current".data cs
    let cs1 := (lit " ".data curR.2).getD curR.2
    let prefR := tryLit "+preferred".data cs1
    some ⟨w, h, mid, fl, curR.1, prefR.1⟩

/-! ## Errors

`XErr` models the exceptions that can escape the parsing entry points:
`XrandrCommandError` (with its message) and a `StopIteration` escaping from
the LineBuffer.  `outOfFuel` is an artifact of the fuel encoding of the
while-loops and is unreachable whenever the fuel exceeds the number of
remaining lines. -/

inductive XErr where
  | commandError (msg : String)
  | stopIteration
  | outOfFuel
  deriving Repr, DecidableEq

/-- Python-level errors raised by the model-object methods:
`ValueError`, `TypeError` and the library exception `XrandrContextError`. -/
inductive PyError where
  | valueError (msg : String)
  | typeError (msg : String)
  | contextError (msg : String)
  deriving Repr, DecidableEq

/-! ## Model objects

Each Python model object stores a back reference `_master` and the stamp
`_generation_id := master._generation_id` taken at construction time, plus a
string `_identifier`.  The back reference cannot be embedded (it is cyclic);
instead the context state is passed explicitly to the methods that consult
it, as the spec design notes prescribe. -/

structure Mode where
  generation_id : Nat
  identifier : String
  size : Nat × Nat
  id : Nat
  preferred : Bool
  flags : List String
  deriving Repr, DecidableEq

structure Output where
  generation_id : Nat
  identifier : String
  name : String
  connected : Option Bool
  size : Option (Nat × Nat)
  position : Option (Nat × Nat)
  current_mode_id : Option Nat
  modes : List Mode
  deriving Repr, DecidableEq

structure Screen where
  generation_id : Nat
  identifier : String
  number : Nat
  size_min : Nat × Nat
  size_current : Nat × Nat
  size_max : Nat × Nat
  outputs : List Output
  deriving Repr, DecidableEq

/-! ## Xrandr context state and mutation requests

The mutable fields of the `Xrandr` object that the claims concern:
`_generation_id` and `_pending_updates` (a mapping keyed by
`(object identifier, property name)`; modelled as an association list with
in-place replacement).  The `screen` field is produced by parsing the output
of the external tool and is not part of this pure state.  The update policy
is DEFERRED (the constructor default); under IMMEDIATE, `_perform_update`
would additionally commit, which involves the external invocation. -/

structure XrandrState where
  generation_id : Nat
  pending_updates : List ((String × String) × List String)
  deriving Repr, DecidableEq

/-- Replace the value at `k`, or append the binding if `k` is absent
(Python dict item assignment). -/
def assocUpdate (l : List ((String × String) × List String)) (k : String × String)
    (v : List String) : List ((String × String) × List String) :=
  match l with
  | [] => [(k, v)]
  | (k1, v1) :: t => if k1 = k then (k, v) :: t else (k1, v1) :: assocUpdate t k v

/-- Lookup in the pending-updates mapping. -/
def assocLookup (l : List ((String × String) × List String)) (k : String × String) :
    Option (List String) :=
  match l with
  | [] => none
  | (k1, v) :: t => if k1 = k then some v else assocLookup t k

/-- `Xrandr._perform_update(object_identifier, property_name, xrandr_args)`
under the DEFERRED policy: record the pending registration, collapsing to the
latest value per key. -/
def performUpdate (st : XrandrState) (object_identifier property_name : String)
    (xrandr_args : List String) : XrandrState :=
  { st with pending_updates :=
      assocUpdate st.pending_updates (object_identifier, property_name) xrandr_args }

/-- The state effect of `Xrandr.refresh`: increment the generation counter
and discard all pending registrations (the reparse of the external report
rebuilds the `screen` field, outside this pure state). -/
def refreshState (st : XrandrState) : XrandrState :=
  { generation_id := st.generation_id + 1, pending_updates := [] }

/-- `XrandrModelObject.is_valid`: the stored stamp equals the live counter of
the master context. -/
def modelIsValid (generation_id : Nat) (master : XrandrState) : Bool :=
  generation_id == master.generation_id

/-- `XrandrModelObject._require_valid`: raise `XrandrContextError` when the
object is stale.  Defined in the source but never called by any mutation
method. -/
def requireValid (generation_id : Nat) (master : XrandrState) (className : String) :
    Except PyError Unit :=
  if modelIsValid generation_id master then .ok ()
  else .error (.contextError ("Use of invalidated " ++ className ++ " object"))

/-- `Output.is_valid` (inherited from XrandrModelObject). -/
def Output.is_valid (o : Output) (master : XrandrState) : Bool :=
  modelIsValid o.generation_id master

/-- The `XrandrRelativePosition.every` list. -/
def XrandrRelativePosition.every : List String :=
  ["--left-of", "--right-of", "--above", "--below", "--same-as"]

/-- `Output.set_mode(mode)`: registers
`["--output", name, "--mode", str(hex(mode.id))]` keyed by
`(identifier, "mode")`.  Note: no validity check is performed. -/
def Output.set_mode (o : Output) (mode : Mode) (st : XrandrState) : XrandrState :=
  performUpdate st o.identifier "mode" ["--output", o.name, "--mode", pyHex mode.id]

/-- `Output.set_position(x, y)`: registers
`["--output", name, "--pos", "{x}x{y}"]` keyed by `(identifier, "position")`.
Note: no validity check is performed. -/
def Output.set_position (o : Output) (x y : Int) (st : XrandrState) : XrandrState :=
  performUpdate st o.identifier "position"
    ["--output", o.name, "--pos", toString x ++ "x" ++ toString y]

/-- `Output.set_position_relative_to(relative_pos, output)`: raise
`ValueError` if the flag is outside `XrandrRelativePosition.every`, otherwise
register `["--output", name, relative_pos, output.name]` keyed by
`(identifier, "position")`.  Note: no validity check is performed. -/
def Output.set_position_relative_to (o : Output) (relative_pos : String)
    (output : Output) (st : XrandrState) : Except PyError XrandrState :=
  if relative_pos ∉ XrandrRelativePosition.every then
    .error (.valueError "Invalid relative position")
  else
    .ok (performUpdate st o.identifier "position"
      ["--output", o.name, relative_pos, output.name])

/-- The operations that can touch a context after construction, for stating
the permanence of invalidation.  `commitUpdates` runs the external tool on
the pending arguments, clears them and calls `refresh`. -/
inductive XOp where
  | refresh
  | commitUpdates
  | performUpdate (object_identifier property_name : String) (args : List String)

/-- State effect of one operation on the context. -/
def applyOp (st : XrandrState) : XOp → XrandrState
  | .refresh => refreshState st
  | .commitUpdates => refreshState { st with pending_updates := [] }
  | .performUpdate oid prop args => performUpdate st oid prop args

/-- State effect of a sequence of operations. -/
def applyOps (st : XrandrState) (ops : List XOp) : XrandrState :=
  ops.foldl applyOp st

/-! ## The recursive-descent parser (Xrandr._parse_screen and friends)

Each while-loop is a fuel-indexed recursive function; every iteration
consumes at least one line. -/

/-- `Xrandr._parse_mode(output_name, lines)`: consume the mode-header line,
fail with `XrandrCommandError` if it does not match, discard exactly two
metadata lines unconditionally, and build the Mode.  The flags capture is
processed by `.strip().split()` (the `or ""` branch of the source is dead:
the flags group is mandatory).  The stray debugging print of the source has
no model. -/
def parseMode (gen : Nat) (output_name : String) (lines : LineBuffer) :
    Except XErr (Mode × LineBuffer) :=
  match lines.next with
  | none => .error .stopIteration
  | some (mode_header_line, b1) =>
    match matchModeHeader mode_header_line with
    | none => .error (.commandError ("Could not parse Mode header line: " ++ mode_header_line))
    | some m =>
      match b1.next with
      | none => .error .stopIteration
      | some (_, b2) =>
        match b2.next with
        | none => .error .stopIteration
        | some (_, b3) =>
          .ok (⟨gen, "Mode(" ++ output_name ++ "," ++ pyHex (hexVal m.mode_id) ++ ")",
                (decVal m.width, decVal m.height), hexVal m.mode_id, m.preferred,
                pySplit (pyStrip m.flags)⟩, b3)

/-- The mode-collecting while-loop of `Xrandr._parse_output`: skip
tab-prefixed supplementary lines, parse mode-header lines, stop (without
consuming) at a line that starts with neither tab nor space, and fail on any
other line. -/
def parseOutputModes (gen : Nat) (name : String) :
    Nat → List Mode → LineBuffer → Except XErr (List Mode × LineBuffer)
  | 0, _, _ => .error .outOfFuel
  | fuel + 1, modes, b =>
    match b.has_next with
    | (false, b1) => .ok (modes, b1)
    | (true, b1) =>
      match b1.peek with
      | none => .error .stopIteration
      | some (l, b2) =>
        if pyStartsWith l "\t" then
          match b2.next with
          | none => .error .stopIteration
          | some (_, b3) => parseOutputModes gen name fuel modes b3
        else if (matchModeHeader l).isSome then
          match parseMode gen name b2 with
          | .error e => .error e
          | .ok (m, b3) => parseOutputModes gen name fuel (modes ++ [m]) b3
        else if !(pyStartsWith l " ") then
          .ok (modes, b2)
        else
          .error (.commandError ("Could not parse xrandr Output supplementary line: " ++ l))

/-- `Xrandr._parse_output(lines)`: consume the output-header line, fail if it
does not match, decode the tri-state status, the optional size, the position
(defaulting to `(0,0)` when a size is present without explicit position) and
the optional current mode id, then collect the modes. -/
def parseOutput (gen : Nat) (fuel : Nat) (lines : LineBuffer) :
    Except XErr (Output × LineBuffer) :=
  match lines.next with
  | none => .error .stopIteration
  | some (output_header_line, b1) =>
    match matchOutputHeader output_header_line with
    | none =>
      .error (.commandError ("Could not parse Output header line: " ++ output_header_line))
    | some m =>
      let connected : Option Bool :=
        if m.status = "connected" then some true
        else if m.status = "disconnected" then some false
        else none
      let size : Option (Nat × Nat) :=
        match m.width, m.height with
        | some w, some h => some (decVal w, decVal h)
        | _, _ => none
      let position : Option (Nat × Nat) :=
        match m.xpos, m.ypos with
        | some x, some y => some (decVal x, decVal y)
        | _, _ => match size with | none => none | some _ => some (0, 0)
      let current_mode_id : Option Nat := m.mode_id.map hexVal
      match parseOutputModes gen m.name fuel [] b1 with
      | .error e => .error e
      | .ok (modes, b2) =>
        .ok (⟨gen, "Output(" ++ m.name ++ ")", m.name, connected, size, position,
              current_mode_id, modes⟩, b2)

/-- The output-collecting while-loop of `Xrandr._parse_screen`: while the
next line matches the output header, parse one output.  The unguarded
`lines.peek()` raises `StopIteration` on an exhausted cursor. -/
def parseOutputsLoop (gen : Nat) :
    Nat → List Output → LineBuffer → Except XErr (List Output × LineBuffer)
  | 0, _, _ => .error .outOfFuel
  | fuel + 1, outputs, b =>
    match b.peek with
    | none => .error .stopIteration
    | some (l, b1) =>
      if (matchOutputHeader l).isSome then
        match parseOutput gen fuel b1 with
        | .error e => .error e
        | .ok (o, b2) => parseOutputsLoop gen fuel (outputs ++ [o]) b2
      else .ok (outputs, b1)

/-- The trailing-blank-line loop of `Xrandr._parse_screen`:
`while lines.has_next() and lines.peek().strip() == "": lines.next()`. -/
def skipBlanks : Nat → LineBuffer → Except XErr LineBuffer
  | 0, _ => .error .outOfFuel
  | fuel + 1, b =>
    match b.has_next with
    | (false, b1) => .ok b1
    | (true, b1) =>
      match b1.peek with
      | none => .error .stopIteration
      | some (l, b2) =>
        if pyStrip l = "" then
          match b2.next with
          | none => .error .stopIteration
          | some (_, b3) => skipBlanks fuel b3
        else .ok b2

/-- `Xrandr._parse_screen(lines)`: consume and match the screen-header line,
collect the outputs, skip trailing blank lines, fail if any line remains,
and build the Screen. -/
def parseScreen (gen : Nat) (fuel : Nat) (lines : LineBuffer) :
    Except XErr (Screen × LineBuffer) :=
  match lines.next with
  | none => .error .stopIteration
  | some (screen_line, b1) =>
    match matchScreenHeader screen_line with
    | none => .error (.commandError ("Could not parse Screen line: " ++ screen_line))
    | some m =>
      match parseOutputsLoop gen fuel [] b1 with
      | .error e => .error e
      | .ok (outputs, b2) =>
        match skipBlanks fuel b2 with
        | .error e => .error e
        | .ok b3 =>
          match b3.has_next with
          | (true, b4) =>
            match b4.peek with
            | some (l, _) =>
              .error (.commandError ("Could not parse xrandr output line: " ++ l))
            | none => .error .stopIteration
          | (false, b4) =>
            .ok (⟨gen, "Screen(" ++ toString (decVal m.num) ++ ")", decVal m.num,
                  (decVal m.minW, decVal m.minH), (decVal m.curW, decVal m.curH),
                  (decVal m.maxW, decVal m.maxH), outputs⟩, b4)

/-! ## String renderers (the `__str__` methods used by claim C10) -/

/-- `hex()` applied to a nullable int, as in `Output.__str__`: Python raises
`TypeError` when the value is `None` (the CPython message wording is not
reproduced verbatim). -/
def pyHexObj : Option Nat → Except PyError String
  | some n => .ok (pyHex n)
  | none => .error (.typeError "hex of None")

/-- `Mode.__str__`. -/
def Mode.pyStr (m : Mode) : String :=
  toString m.size.1 ++ "x" ++ toString m.size.2 ++ " (" ++ pyHex m.id ++ ") " ++
    pyJoin " " m.flags ++ (if m.preferred then " preferred" else "")

/-- `Output.__str__`: the size block (entered whenever `size` is present,
since a pair is always truthy) renders `hex(self.current_mode_id)` without
checking that a current mode id is present. -/
def Output.pyStr (o : Output) : Except PyError String :=
  let base := "Output " ++ o.name ++ " is " ++
    (match o.connected with
     | some true => "connected"
     | some false => "disconnected"
     | _ => "status unknown")
  match o.size with
  | none => .ok (o.modes.foldl (fun b m => b ++ "\n  " ++ Mode.pyStr m) base)
  | some (w, h) =>
    let b1 := base ++ " (" ++ toString w ++ "x" ++ toString h
    let b2 :=
      match o.position with
      | some (x, y) => b1 ++ "+" ++ toString x ++ "+" ++ toString y
      | none => b1
    match pyHexObj o.current_mode_id with
    | .error e => .error e
    | .ok hx =>
      .ok (o.modes.foldl (fun b m => b ++ "\n  " ++ Mode.pyStr m)
        (b2 ++ ", mode ID " ++ hx ++ ")"))

/-! ## Concrete report of the end-to-end scenario (claim C1) -/

/-- The six-line report of the end-to-end scenario: screen header, output
header, mode header, two metadata lines, terminating blank line. -/
def report1 : List String :=
  ["Screen 0: minimum 320 x 200, current 1920 x 1080, maximum 8192 x 8192",
   "eDP-1 connected 1920x1080+0+0 (0x44)",
   "  1920x1080 (0x44) 60.00Hz -HSync +VSync  *current +preferred",
   "        h: width  1920 start 1968 end 2000 total 2080 skew    0 clock  66.59KHz",
   "        v: height 1080 start 1083 end 1088 total 1111           clock  59.93Hz",
   ""]

/-! ## Helper lemmas -/

theorem assocLookup_assocUpdate (l : List ((String × String) × List String))
    (k : String × String) (v : List String) :
    assocLookup (assocUpdate l k v) k = some v := by
  induction l with
  | nil => simp [assocUpdate, assocLookup]
  | cons hd t ih =>
    obtain ⟨k1, v1⟩ := hd
    by_cases hk : k1 = k
    · simp [assocUpdate, assocLookup, hk]
    · simp [assocUpdate, assocLookup, hk, ih]

theorem applyOp_gen_le (st : XrandrState) (op : XOp) :
    st.generation_id ≤ (applyOp st op).generation_id := by
  cases op <;> simp [applyOp, refreshState, performUpdate]

theorem applyOps_gen_le (ops : List XOp) :
    ∀ st : XrandrState, st.generation_id ≤ (applyOps st ops).generation_id := by
  induction ops with
  | nil => intro st; simp [applyOps]
  | cons op t ih =>
    intro st
    have h1 := applyOp_gen_le st op
    have h2 := ih (applyOp st op)
    have h3 : applyOps st (op :: t) = applyOps (applyOp st op) t := rfl
    rw [h3]
    exact Nat.le_trans h1 h2


/-! ## Claim theorems -/

/-- C2: the claim says every mutation-request operation on a superseded model
object raises an invalid-use failure before any pending registration is
recorded.  The code defines `_require_valid` (which would raise
`XrandrContextError`) but none of `set_mode`, `set_position`,
`set_position_relative_to` calls it: on an Output stamped at generation 1
while the context is at generation 2, each operation silently records its
registration.  This theorem evaluates the model at that failing input. -/
theorem c2_stale_mutation_no_guard :
    Output.is_valid
        ⟨1, "Output(eDP-1)", "eDP-1", some true, some (1920, 1080), some (0, 0), some 68, []⟩
        ⟨2, []⟩ = false
    ∧ requireValid 1 ⟨2, []⟩ "Output"
      = .error (.contextError "Use of invalidated Output object")
    ∧ (Output.set_mode
        ⟨1, "Output(eDP-1)", "eDP-1", some true, some (1920, 1080), some (0, 0), some 68, []⟩
        ⟨1, "Mode(eDP-1,0x44)", (1920, 1080), 68, true, []⟩ ⟨2, []⟩).pending_updates
      = [(("Output(eDP-1)", "mode"), ["--output", "eDP-1", "--mode", "0x44"])]
    ∧ (Output.set_position
        ⟨1, "Output(eDP-1)", "eDP-1", some true, some (1920, 1080), some (0, 0), some 68, []⟩
        5 7 ⟨2, []⟩).pending_updates
      = [(("Output(eDP-1)", "position"), ["--output", "eDP-1", "--pos", "5x7"])]
    ∧ Output.set_position_relative_to
        ⟨1, "Output(eDP-1)", "eDP-1", some true, some (1920, 1080), some (0, 0), some 68, []⟩
        "--left-of"
        ⟨1, "Output(HDMI-1)", "HDMI-1", some true, none, none, none, []⟩ ⟨2, []⟩
      = .ok ⟨2, [(("Output(eDP-1)", "position"), ["--output", "eDP-1", "--left-of", "HDMI-1"])]⟩ :=
  ⟨rfl, rfl, rfl, rfl, rfl⟩

/-- C4: a model object stamped with generation G is valid exactly while the
context counter equals G; after any refresh (which increments the counter),
and after every further sequence of context operations, it is invalid,
permanently — the counter never decreases. -/
theorem c4_generation_invariant (G : Nat) (st : XrandrState)
    (h : st.generation_id = G) :
    modelIsValid G st = true
    ∧ ∀ ops : List XOp, modelIsValid G (applyOps (applyOp st .refresh) ops) = false := by
  constructor
  · simp [modelIsValid, h]
  · intro ops
    have h1 : (applyOp st .refresh).generation_id = G + 1 := by
      simp [applyOp, refreshState, h]
    have h2 := applyOps_gen_le ops (applyOp st .refresh)
    rw [h1] at h2
    simp only [modelIsValid, beq_eq_false_iff_ne, ne_eq]
    omega

/-- Witness for C4 at a concrete context. -/
theorem c4_generation_invariant_witness :
    modelIsValid 0 ⟨0, []⟩ = true
    ∧ ∀ ops : List XOp, modelIsValid 0 (applyOps (applyOp ⟨0, []⟩ .refresh) ops) = false :=
  c4_generation_invariant 0 ⟨0, []⟩ rfl

/-- C6: a report whose first line does not match the screen-header grammar
makes `_parse_screen` raise `XrandrCommandError` with a message carrying that
exact line, and no Screen is produced. -/
theorem c6_screen_parse_failure (gen fuel : Nat) (b b1 : LineBuffer) (l : String)
    (hnext : b.next = some (l, b1)) (hno : matchScreenHeader l = none) :
    parseScreen gen fuel b = .error (.commandError ("Could not parse Screen line: " ++ l))
    ∧ ∀ s b2, parseScreen gen fuel b ≠ .ok (s, b2) := by
  have he : parseScreen gen fuel b
      = .error (.commandError ("Could not parse Screen line: " ++ l)) := by
    simp [parseScreen, hnext, hno]
  exact ⟨he, fun s b2 hk => by rw [he] at hk; cases hk⟩

/-- Witness for C6 on the report whose screen line is `Screen: bogus`. -/
theorem c6_screen_parse_failure_witness :
    parseScreen 1 10 (LineBuffer.ofList ["Screen: bogus"])
      = .error (.commandError ("Could not parse Screen line: " ++ "Screen: bogus"))
    ∧ ∀ s b2, parseScreen 1 10 (LineBuffer.ofList ["Screen: bogus"]) ≠ .ok (s, b2) :=
  c6_screen_parse_failure 1 10 (LineBuffer.ofList ["Screen: bogus"]) ⟨none, []⟩
    "Screen: bogus" rfl rfl

/-- C9: truncated reports surface the StopIteration of the line cursor
instead of a parse failure carrying an offending line: a report consisting of
only a valid screen header (the unguarded `lines.peek()` of the output loop),
and a valid mode header followed by fewer than two further lines (the
unconditional two-line discard of `_parse_mode`). -/
theorem c9_truncated_reports_stop_iteration :
    parseScreen 1 10 (LineBuffer.ofList
      ["Screen 0: minimum 320 x 200, current 1920 x 1080, maximum 8192 x 8192"])
      = .error .stopIteration
    ∧ parseMode 1 "eDP-1" (LineBuffer.ofList
        ["  1920x1080 (0x44) 60.00Hz -HSync +VSync *current +preferred"])
      = .error .stopIteration
    ∧ parseMode 1 "eDP-1" (LineBuffer.ofList
        ["  1920x1080 (0x44) 60.00Hz -HSync +VSync *current +preferred",
         "        h: width  1920 start 1968 end 2000 total 2080"])
      = .error .stopIteration :=
  ⟨rfl, rfl, rfl⟩

/-- C10: rendering an Output whose size is present but whose current mode id
is absent raises TypeError, because `Output.__str__` applies `hex` to the
mode id whenever a size is present, without checking it. -/
theorem c10_output_str_hex_none (o : Output) (wh : Nat × Nat)
    (h1 : o.size = some wh) (h2 : o.current_mode_id = none) :
    Output.pyStr o = .error (.typeError "hex of None") := by
  obtain ⟨w, h⟩ := wh
  simp [Output.pyStr, h1, h2, pyHexObj]

/-- Witness for C10 at a concrete connected-but-modeless Output. -/
theorem c10_output_str_hex_none_witness :
    Output.pyStr
        ⟨1, "Output(eDP-1)", "eDP-1", some true, some (1920, 1080), some (0, 0), none, []⟩
      = .error (.typeError "hex of None") :=
  c10_output_str_hex_none _ (1920, 1080) rfl rfl

/-- C7: the registered argument lists have exactly the claimed shapes:
`--output name --mode 0x<hex id>` for set_mode, `--output name --pos <x>x<y>`
for set_position, `--output name <flag> <other name>` for
set_position_relative_to when the flag is in `XrandrRelativePosition.every`,
and ValueError for any flag outside that set. -/
theorem c7_mutation_arg_shapes (o output : Output) (mode : Mode) (x y : Int)
    (st : XrandrState) (relative_pos : String) :
    assocLookup (Output.set_mode o mode st).pending_updates (o.identifier, "mode")
      = some ["--output", o.name, "--mode", pyHex mode.id]
    ∧ (∃ digits, pyHex mode.id = "0x" ++ digits)
    ∧ assocLookup (Output.set_position o x y st).pending_updates (o.identifier, "position")
      = some ["--output", o.name, "--pos", toString x ++ "x" ++ toString y]
    ∧ (relative_pos ∈ XrandrRelativePosition.every →
        ∃ st1, Output.set_position_relative_to o relative_pos output st = .ok st1
          ∧ assocLookup st1.pending_updates (o.identifier, "position")
            = some ["--output", o.name, relative_pos, output.name])
    ∧ (relative_pos ∉ XrandrRelativePosition.every →
        Output.set_position_relative_to o relative_pos output st
          = .error (.valueError "Invalid relative position")) := by
  refine ⟨?_, ⟨(Nat.toDigits 16 mode.id).asString, rfl⟩, ?_, ?_, ?_⟩
  · simp [Output.set_mode, performUpdate, assocLookup_assocUpdate]
  · simp [Output.set_position, performUpdate, assocLookup_assocUpdate]
  · intro hmem
    refine ⟨performUpdate st o.identifier "position"
        ["--output", o.name, relative_pos, output.name], ?_, ?_⟩
    · simp [Output.set_position_relative_to, hmem]
    · simp [performUpdate, assocLookup_assocUpdate]
  · intro hmem
    simp [Output.set_position_relative_to, hmem]

/-- Witness for C7: the relative-position branches at a legal flag and at an
illegal one, on concrete objects. -/
theorem c7_mutation_arg_shapes_witness :
    (∃ st1,
        Output.set_position_relative_to
            ⟨1, "Output(eDP-1)", "eDP-1", some true, none, none, none, []⟩ "--left-of"
            ⟨1, "Output(HDMI-1)", "HDMI-1", some true, none, none, none, []⟩ ⟨1, []⟩
          = .ok st1
        ∧ assocLookup st1.pending_updates ("Output(eDP-1)", "position")
          = some ["--output", "eDP-1", "--left-of", "HDMI-1"])
    ∧ Output.set_position_relative_to
          ⟨1, "Output(eDP-1)", "eDP-1", some true, none, none, none, []⟩ "--next-to"
          ⟨1, "Output(HDMI-1)", "HDMI-1", some true, none, none, none, []⟩ ⟨1, []⟩
        = .error (.valueError "Invalid relative position") :=
  ⟨(c7_mutation_arg_shapes
      ⟨1, "Output(eDP-1)", "eDP-1", some true, none, none, none, []⟩
      ⟨1, "Output(HDMI-1)", "HDMI-1", some true, none, none, none, []⟩
      ⟨1, "Mode(eDP-1,0x44)", (1920, 1080), 68, true, []⟩ 5 7 ⟨1, []⟩
      "--left-of").2.2.2.1 (by decide),
   (c7_mutation_arg_shapes
      ⟨1, "Output(eDP-1)", "eDP-1", some true, none, none, none, []⟩
      ⟨1, "Output(HDMI-1)", "HDMI-1", some true, none, none, none, []⟩
      ⟨1, "Mode(eDP-1,0x44)", (1920, 1080), 68, true, []⟩ 5 7 ⟨1, []⟩
      "--next-to").2.2.2.2 (by decide)⟩

/-- C8: when at least one unconsumed line remains, `peek` returns it without
advancing (the returned state holds the same number of unconsumed lines), a
`next` right after the `peek` returns the same line, and the position then
has advanced by exactly one line; when no line remains, `peek` and `next`
fail with the exhausted condition while `has_next` returns false. -/
theorem c8_linebuffer_contract (b : LineBuffer) :
    (0 < b.size →
      (b.has_next).1 = true
      ∧ ∃ l b1, b.peek = some (l, b1) ∧ b1.size = b.size
          ∧ ∃ b2, b1.next = some (l, b2) ∧ b2.size + 1 = b.size)
    ∧ (b.size = 0 → (b.has_next).1 = false ∧ b.peek = none ∧ b.next = none) := by
  obtain ⟨buf, rest⟩ := b
  cases buf with
  | some l =>
    constructor
    · intro _
      refine ⟨rfl, l, ⟨some l, rest⟩, rfl, rfl, ⟨none, rest⟩, rfl, ?_⟩
      simp [LineBuffer.size, Nat.add_comm]
    · intro h
      simp [LineBuffer.size] at h
  | none =>
    cases rest with
    | nil =>
      constructor
      · intro h
        simp [LineBuffer.size] at h
      · intro _
        exact ⟨rfl, rfl, rfl⟩
    | cons l t =>
      constructor
      · intro _
        refine ⟨rfl, l, ⟨some l, t⟩, ?_, ?_, ⟨none, t⟩, rfl, ?_⟩
        · exact rfl
        · simp [LineBuffer.size, Nat.add_comm]
        · simp [LineBuffer.size, Nat.add_comm]
      · intro h
        simp [LineBuffer.size] at h

/-- Witness for C8: the non-empty branch on a one-line cursor and the
exhausted branch on an empty cursor. -/
theorem c8_linebuffer_contract_witness :
    ((LineBuffer.ofList ["a"]).has_next).1 = true
    ∧ (∃ l b1, (LineBuffer.ofList ["a"]).peek = some (l, b1)
        ∧ b1.size = (LineBuffer.ofList ["a"]).size
        ∧ ∃ b2, b1.next = some (l, b2) ∧ b2.size + 1 = (LineBuffer.ofList ["a"]).size)
    ∧ ((LineBuffer.ofList []).has_next).1 = false
    ∧ (LineBuffer.ofList []).peek = none
    ∧ (LineBuffer.ofList []).next = none := by
  obtain ⟨h1, h2⟩ := (c8_linebuffer_contract (LineBuffer.ofList ["a"])).1 (by decide)
  obtain ⟨h3, h4, h5⟩ := (c8_linebuffer_contract (LineBuffer.ofList [])).2 rfl
  exact ⟨h1, h2, h3, h4, h5⟩

/-- A successful `peek` leaves the returned cursor with the line still
buffered: peeking it again returns the same line and state, and consuming it
returns the same line. -/
theorem peek_then (b b1 : LineBuffer) (l : String) (h : b.peek = some (l, b1)) :
    b1.peek = some (l, b1) ∧ b1.next = some (l, ⟨none, b1.rest⟩) := by
  obtain ⟨buf, rest⟩ := b
  cases buf with
  | some l0 =>
    simp [LineBuffer.peek, LineBuffer.ensure_buffer] at h
    obtain ⟨rfl, rfl⟩ := h
    exact ⟨rfl, rfl⟩
  | none =>
    cases rest with
    | nil => simp [LineBuffer.peek, LineBuffer.ensure_buffer] at h
    | cons l0 t =>
      simp [LineBuffer.peek, LineBuffer.ensure_buffer] at h
      obtain ⟨rfl, rfl⟩ := h
      exact ⟨rfl, rfl⟩

/-- C5: dispatch of the body loop of `_parse_output` on the next line: a
tab-prefixed line is consumed and ignored; a mode-header line is parsed into
a Mode which is appended; a line starting with neither tab nor space ends the
section and is not consumed (peeking again still returns it); any other line
raises the supplementary-line parse error. -/
theorem c5_output_body_dispatch (gen : Nat) (name : String) (fuel : Nat)
    (modes : List Mode) (b b1 b2 : LineBuffer) (l : String)
    (hn : b.has_next = (true, b1)) (hp : b1.peek = some (l, b2)) :
    (pyStartsWith l "\t" = true →
      ∃ b3, b2.next = some (l, b3)
        ∧ parseOutputModes gen name (fuel + 1) modes b
          = parseOutputModes gen name fuel modes b3)
    ∧ (pyStartsWith l "\t" = false → (matchModeHeader l).isSome = true →
        ∀ m b3, parseMode gen name b2 = .ok (m, b3) →
          parseOutputModes gen name (fuel + 1) modes b
            = parseOutputModes gen name fuel (modes ++ [m]) b3)
    ∧ (pyStartsWith l "\t" = false → matchModeHeader l = none → pyStartsWith l " " = false →
        parseOutputModes gen name (fuel + 1) modes b = .ok (modes, b2)
          ∧ b2.peek = some (l, b2))
    ∧ (pyStartsWith l "\t" = false → matchModeHeader l = none → pyStartsWith l " " = true →
        parseOutputModes gen name (fuel + 1) modes b
          = .error (.commandError ("Could not parse xrandr Output supplementary line: " ++ l))) := by
  obtain ⟨hpk, hnx⟩ := peek_then b1 b2 l hp
  refine ⟨?_, ?_, ?_, ?_⟩
  · intro htab
    refine ⟨⟨none, b2.rest⟩, hnx, ?_⟩
    simp [parseOutputModes, hn, hp, htab, hnx]
  · intro htab hmode m b3 hpm
    simp [parseOutputModes, hn, hp, htab, hmode, hpm]
  · intro htab hmode hsp
    constructor
    · simp [parseOutputModes, hn, hp, htab, hmode, hsp]
    · exact hpk
  · intro htab hmode hsp
    simp [parseOutputModes, hn, hp, htab, hmode, hsp]

/-- Witness for C5: the section-end branch at an unindented non-header line,
which must be left unconsumed. -/
theorem c5_output_body_dispatch_witness :
    parseOutputModes 1 "eDP-1" 5 [] (LineBuffer.ofList ["VGA-1 disconnected"])
      = .ok ([], LineBuffer.ofList ["VGA-1 disconnected"])
    ∧ (LineBuffer.ofList ["VGA-1 disconnected"]).peek
      = some ("VGA-1 disconnected", LineBuffer.ofList ["VGA-1 disconnected"]) :=
  (c5_output_body_dispatch 1 "eDP-1" 4 [] (LineBuffer.ofList ["VGA-1 disconnected"])
      (LineBuffer.ofList ["VGA-1 disconnected"]) (LineBuffer.ofList ["VGA-1 disconnected"])
      "VGA-1 disconnected" rfl rfl).2.2.1 rfl rfl rfl

/-- C1 counterexample: on the report of the end-to-end scenario, the single
parsed Output has `current_mode_id = none` (the output-header pattern demands
a space after the `(0x44)` block, which a line ending there lacks) and its
single Mode has `preferred = false` (the two spaces before `*current` stop
the `*current`/`+preferred` suffixes from matching), contradicting the
claimed `0x44` and `preferred = true`. -/
theorem c1_end_to_end_counterexample :
    (match parseScreen 1 32 (LineBuffer.ofList report1) with
     | .ok (s, _) =>
        some (s.outputs.map (fun o => (o.current_mode_id, o.modes.map Mode.preferred)))
     | .error _ => none)
      = some [(none, [false])]
    ∧ (match parseScreen 1 32 (LineBuffer.ofList report1) with
       | .ok (s, _) =>
          some (s.outputs.map (fun o => (o.current_mode_id, o.modes.map Mode.preferred)))
       | .error _ => none)
      ≠ some [(some 68, [true])] := by
  constructor
  · rfl
  · decide

/-- C1 amended: parsing the report of the end-to-end scenario yields exactly
one Screen (number 0, min (320,200), current (1920,1080), max (8192,8192))
containing exactly one Output (name eDP-1, connected, size (1920,1080),
position (0,0), current_mode_id absent) containing exactly one Mode (size
(1920,1080), id 0x44, preferred false, flags [-HSync, +VSync]), with the
whole report consumed. -/
theorem c1_end_to_end_amended :
    parseScreen 1 32 (LineBuffer.ofList report1)
      = .ok (⟨1, "Screen(0)", 0, (320, 200), (1920, 1080), (8192, 8192),
          [⟨1, "Output(eDP-1)", "eDP-1", some true, some (1920, 1080), some (0, 0), none,
            [⟨1, "Mode(eDP-1,0x44)", (1920, 1080), 68, false, ["-HSync", "+VSync"]⟩]⟩]⟩,
         ⟨none, []⟩) := rfl

/-- `pySplitAux` never emits the empty string: tokens are flushed only from a
non-empty accumulator. -/
theorem pySplitAux_ne_empty (cs : List Char) :
    ∀ acc, ∀ s ∈ pySplitAux cs acc, s ≠ "" := by
  induction cs with
  | nil =>
    intro acc s hs
    unfold pySplitAux at hs
    by_cases hacc : acc.isEmpty
    · rw [if_pos hacc] at hs
      cases hs
    · rw [if_neg hacc] at hs
      simp at hs
      subst hs
      intro hc
      have hdata : acc.reverse = ([] : List Char) := by
        have := congrArg String.data hc
        simpa using this
      have : acc = [] := by simpa using hdata
      simp [this] at hacc
  | cons c t ih =>
    intro acc s hs
    unfold pySplitAux at hs
    by_cases hsp : pyIsSpace c
    · rw [if_pos hsp] at hs
      by_cases hacc : acc.isEmpty
      · rw [if_pos hacc] at hs
        exact ih [] s hs
      · rw [if_neg hacc] at hs
        rcases List.mem_cons.mp hs with rfl | hs2
        · intro hc
          have hdata : acc.reverse = ([] : List Char) := by
            have := congrArg String.data hc
            simpa using this
          have : acc = [] := by simpa using hdata
          simp [this] at hacc
        · exact ih [] s hs2
    · rw [if_neg hsp] at hs
      exact ih (c :: acc) s hs

/-- Python `split()` produces no spurious empty token. -/
theorem pySplit_ne_empty (s : String) : "" ∉ pySplit s := by
  intro h
  exact pySplitAux_ne_empty s.data [] "" h rfl

/-- `pySplitAux` returns a non-empty list whenever the input has a non-space
character or the accumulator is non-empty. -/
theorem pySplitAux_ne_nil (cs : List Char) :
    ∀ acc, ((∃ c ∈ cs, pyIsSpace c = false) ∨ acc ≠ []) → pySplitAux cs acc ≠ [] := by
  induction cs with
  | nil =>
    intro acc h
    unfold pySplitAux
    rcases h with ⟨c, hc, _⟩ | h
    · cases hc
    · rw [if_neg (by simpa [List.isEmpty_iff] using h)]
      exact List.cons_ne_nil _ _
  | cons c t ih =>
    intro acc h
    unfold pySplitAux
    by_cases hsp : pyIsSpace c
    · rw [if_pos hsp]
      by_cases hacc : acc.isEmpty
      · rw [if_pos hacc]
        apply ih []
        left
        rcases h with ⟨c1, hc1, hns⟩ | h
        · rcases List.mem_cons.mp hc1 with rfl | hc1
          · rw [hsp] at hns
            cases hns
          · exact ⟨c1, hc1, hns⟩
        · exact absurd (List.isEmpty_iff.mp hacc) h
      · rw [if_neg hacc]
        exact List.cons_ne_nil _ _
    · rw [if_neg hsp]
      exact ih (c :: acc) (Or.inr (List.cons_ne_nil c acc))

/-- Python `split()` is non-empty on a string containing a non-space
character. -/
theorem pySplit_ne_nil (s : String) (h : ∃ c ∈ s.data, pyIsSpace c = false) :
    pySplit s ≠ [] :=
  pySplitAux_ne_nil s.data [] (Or.inl h)

/-- A character that does not satisfy `p` survives `dropWhile p`. -/
theorem mem_dropWhile_of_not (p : Char → Bool) (l : List Char) (c : Char)
    (hc : c ∈ l) (hp : p c = false) : c ∈ l.dropWhile p := by
  induction l with
  | nil => cases hc
  | cons a t ih =>
    by_cases ha : p a
    · rcases List.mem_cons.mp hc with rfl | hct
      · rw [ha] at hp
        cases hp
      · simpa [List.dropWhile, ha] using ih hct
    · simpa [List.dropWhile, ha] using hc

/-- `strip()` keeps at least one non-space character when the input has
one. -/
theorem pyStrip_has_nonspace (s : String) (h : ∃ c ∈ s.data, pyIsSpace c = false) :
    ∃ c ∈ (pyStrip s).data, pyIsSpace c = false := by
  obtain ⟨c, hc, hns⟩ := h
  have h1 : c ∈ s.data.dropWhile pyIsSpace := mem_dropWhile_of_not _ _ _ hc hns
  have h2 : c ∈ (s.data.dropWhile pyIsSpace).reverse := List.mem_reverse.mpr h1
  have h3 : c ∈ (s.data.dropWhile pyIsSpace).reverse.dropWhile pyIsSpace :=
    mem_dropWhile_of_not _ _ _ h2 hns
  exact ⟨c, by simpa [pyStrip] using List.mem_reverse.mpr h3, hns⟩

/-- A successful `flagToken` consumes a token whose first character is `+`,
`-` or `I`; in particular it is not whitespace. -/
theorem flagToken_head (cs tok rest : List Char) (h : flagToken cs = some (tok, rest)) :
    ∃ c t, tok = c :: t ∧ pyIsSpace c = false := by
  unfold flagToken at h
  split at h
  case h_1 c1 c2 cs1 =>
    split at h
    case isTrue hcond =>
      split at h
      case h_1 rest1 hlit =>
        obtain ⟨rfl, rfl⟩ : c1 :: c2 :: "Sync".data = tok ∧ rest1 = rest := by
          simpa using h
        refine ⟨c1, c2 :: "Sync".data, rfl, ?_⟩
        rcases hcond.1 with rfl | rfl <;> rfl
      case h_2 hlit =>
        split at h
        case h_1 rest1 hlit2 =>
          obtain ⟨rfl, rfl⟩ : "Interlace".data = tok ∧ rest1 = rest := by
            simpa using h
          exact ⟨'I', _, rfl, rfl⟩
        case h_2 => cases h
    case isFalse hcond =>
      split at h
      case h_1 rest1 hlit2 =>
        obtain ⟨rfl, rfl⟩ : "Interlace".data = tok ∧ rest1 = rest := by
          simpa using h
        exact ⟨'I', _, rfl, rfl⟩
      case h_2 => cases h
  case h_2 =>
    split at h
    case h_1 rest1 hlit2 =>
      obtain ⟨rfl, rfl⟩ : "Interlace".data = tok ∧ rest1 = rest := by
        simpa using h
      exact ⟨'I', _, rfl, rfl⟩
    case h_2 => cases h

/-- One unfolding of the greedy flags repetition: the consumed span starts
with the first token. -/
theorem munchFlagsAux_cons (fuel : Nat) (cs tok rest : List Char)
    (h : flagToken cs = some (tok, rest)) :
    ∃ tail, (munchFlagsAux (fuel + 1) cs).1 = tok ++ tail := by
  unfold munchFlagsAux
  rw [h]
  cases rest with
  | nil => exact ⟨(munchFlagsAux fuel []).1, rfl⟩
  | cons c rest1 =>
    dsimp only
    by_cases hc : c = ' '
    · rw [if_pos hc]
      exact ⟨c :: (munchFlagsAux fuel rest1).1, rfl⟩
    · rw [if_neg hc]
      exact ⟨(munchFlagsAux fuel (c :: rest1)).1, rfl⟩

/-- The flags capture produced by `munchFlags` contains a non-space
character (its first character). -/
theorem munchFlags_head (cs : List Char) (s : String) (rest : List Char)
    (h : munchFlags cs = some (s, rest)) :
    ∃ c ∈ s.data, pyIsSpace c = false := by
  unfold munchFlags at h
  cases hft : flagToken cs with
  | none => rw [hft] at h; cases h
  | some pr =>
    obtain ⟨tok, r⟩ := pr
    rw [hft] at h
    have hs : s.data = (munchFlagsAux cs.length cs).1 := by
      have : String.mk (munchFlagsAux cs.length cs).1 = s := by
        simpa using congrArg (fun x => (Option.map Prod.fst x).getD "") h
      simpa using congrArg String.data this.symm
    have hne : cs ≠ [] := by
      intro hnil
      rw [hnil] at hft
      cases hft
    obtain ⟨c0, t0, rfl⟩ := List.exists_cons_of_ne_nil hne
    have hlen : (c0 :: t0).length = t0.length + 1 := rfl
    obtain ⟨tail, hspan⟩ := munchFlagsAux_cons t0.length (c0 :: t0) tok r hft
    obtain ⟨c, t, htok, hcns⟩ := flagToken_head (c0 :: t0) tok r hft
    refine ⟨c, ?_, hcns⟩
    rw [hs, hlen, hspan, htok]
    simp

/-- The flags field of the mode matcher always comes from a successful
`munchFlags` on some input. -/
theorem tryOptSpaceThenFlags_src (cs : List Char) (r : String × List Char)
    (h : tryOptSpaceThenFlags cs = some r) :
    ∃ cs0, munchFlags cs0 = some r := by
  unfold tryOptSpaceThenFlags at h
  split at h
  case h_1 c cs1 =>
    split at h
    case isTrue hc =>
      split at h
      case h_1 r1 hm =>
        obtain rfl : r1 = r := by simpa using h
        exact ⟨cs1, hm⟩
      case h_2 hm => exact ⟨c :: cs1, h⟩
    case isFalse hc => exact ⟨c :: cs1, h⟩
  case h_2 => exact ⟨[], h⟩

/-- The flags capture of every accepted mode-header line is the result of a
successful flags-group match. -/
theorem matchModeHeader_flags (l : String) (mc : ModeCaps)
    (h : matchModeHeader l = some mc) :
    ∃ cs rest, tryOptSpaceThenFlags cs = some (mc.flags, rest) := by
  unfold matchModeHeader at h
  split at h
  next => cases h
  next w h1 mid cs hpre =>
    split at h
    next => cases h
    next fl cs0 hto =>
      obtain rfl : (⟨w, h1, mid, fl,
          (tryLit "*current".data cs0).1,
          (tryLit "+preferred".data
            ((lit " ".data (tryLit "*current".data cs0).2).getD
              (tryLit "*current".data cs0).2)).1⟩ : ModeCaps) = mc := by
        simpa using h
      exact ⟨cs, cs0, hto⟩

/-- C3 counterexample: a mode header with an empty flags segment is not
accepted by the mode-header matcher at all — the flags group demands at
least one token — so parsing it yields a Mode-header parse error, not a Mode
with an empty token sequence. -/
theorem c3_empty_flags_counterexample :
    matchModeHeader "  1920x1080 (0x44) 60.00Hz *current +preferred" = none
    ∧ parseMode 1 "eDP-1" (LineBuffer.ofList
        ["  1920x1080 (0x44) 60.00Hz *current +preferred", "meta1", "meta2"])
      = .error (.commandError ("Could not parse Mode header line: "
          ++ "  1920x1080 (0x44) 60.00Hz *current +preferred")) :=
  ⟨rfl, rfl⟩

/-- C3 amended: for every line accepted by the mode-header matcher, the Mode
carries exactly the whitespace-split of the flags capture, in reported
order, with no empty token — and that token sequence is never empty, since
the matcher rejects mode headers with an empty flags segment; a flags
segment `+HSync -VSync` yields exactly `["+HSync", "-VSync"]`. -/
theorem c3_flags_split_amended :
    (∀ l mc, matchModeHeader l = some mc →
      ∀ gen output_name x y,
        parseMode gen output_name (LineBuffer.ofList [l, x, y])
          = .ok (⟨gen, "Mode(" ++ output_name ++ "," ++ pyHex (hexVal mc.mode_id) ++ ")",
              (decVal mc.width, decVal mc.height), hexVal mc.mode_id, mc.preferred,
              pySplit (pyStrip mc.flags)⟩, ⟨none, []⟩)
        ∧ "" ∉ pySplit (pyStrip mc.flags)
        ∧ pySplit (pyStrip mc.flags) ≠ [])
    ∧ (∃ mc, matchModeHeader "  1920x1080 (0x44) 60.00Hz +HSync -VSync *current +preferred"
          = some mc
        ∧ mc.flags = "+HSync -VSync "
        ∧ pySplit (pyStrip mc.flags) = ["+HSync", "-VSync"]) := by
  constructor
  · intro l mc h gen output_name x y
    refine ⟨?_, pySplit_ne_empty _, ?_⟩
    · simp [parseMode, LineBuffer.ofList, LineBuffer.ensure_buffer, LineBuffer.next, h]
    · apply pySplit_ne_nil
      apply pyStrip_has_nonspace
      obtain ⟨cs, rest, hto⟩ := matchModeHeader_flags l mc h
      obtain ⟨cs0, hm⟩ := tryOptSpaceThenFlags_src cs _ hto
      exact munchFlags_head cs0 _ _ hm
  · exact ⟨⟨"1920", "1080", "44", "+HSync -VSync ", true, true⟩, rfl, rfl, rfl⟩

/-- Witness for C3 amended at a concrete accepted mode-header line. -/
theorem c3_flags_split_amended_witness :
    parseMode 2 "eDP-1" (LineBuffer.ofList
        ["  1920x1080 (0x44) 60.00Hz +HSync -VSync *current +preferred", "m1", "m2"])
      = .ok (⟨2, "Mode(eDP-1," ++ pyHex (hexVal "44") ++ ")",
          (decVal "1920", decVal "1080"), hexVal "44", true,
          pySplit (pyStrip "+HSync -VSync ")⟩, ⟨none, []⟩)
    ∧ "" ∉ pySplit (pyStrip "+HSync -VSync ")
    ∧ pySplit (pyStrip "+HSync -VSync ") ≠ [] :=
  c3_flags_split_amended.1
    "  1920x1080 (0x44) 60.00Hz +HSync -VSync *current +preferred"
    ⟨"1920", "1080", "44", "+HSync -VSync ", true, true⟩ rfl 2 "eDP-1" "m1" "m2"
